import Mathlib

/-!
Shallow embedding of the mcp-server-synology client library.

Embedded source files:
* `src/auth/synology_auth.py` — the `SynologyAuth` class (session negotiator):
  `login_with_session` and `logout`, including the version-fallback loops.
* `src/dnsserver/synology_dnsserver.py` — the `SynologyDNSServer` class
  (versioned resource client): `_make_request` response classification, and
  the request-parameter construction of `create_record`, `update_record`
  and `delete_record` (including the `json.dumps` serialization of the
  delete items list).

The HTTP transport is modelled as a function from the API version string of
an attempt to the attempt's outcome: either a raised exception (anything
thrown by `requests.get`, `raise_for_status`, `.json()` or the subsequent
dictionary/key accesses inside the `try` block) or a parsed JSON response.
Only the response fields the Python code actually inspects are modelled:
`success`, `data.sid`, `error.code`, `error.message`.

Each embedded operation additionally returns the ordered list of version
candidates for which the transport was invoked, so that "no further
candidate is attempted" / "no network call is made" are provable facts.
-/

/-- A Synology error code as read by `result.get('error', \x7b\x7d).get('code', 'unknown')`:
the remote sends integers, while the Python code also manufactures string
codes such as `'unknown'`, `'no_session'`, `'network_error'`. -/
inductive ErrCode where
  | num : Nat → ErrCode
  | str : String → ErrCode
deriving DecidableEq, Repr

/-- The projection of a parsed `auth.cgi` JSON response that
`login_with_session` / `logout` inspect: the `success` flag, `data.sid`
(absent ↦ `none`: the Python `result['data']['sid']` access then raises
`KeyError`), and the `error.code` / `error.message` fields. -/
structure ApiResult where
  success : Bool
  sid : Option String
  errCode : Option ErrCode
  errMsg : Option String
deriving DecidableEq, Repr

/-- Which Python exception class an attempt raised: `requests.RequestException`
or any other `Exception` (the two are distinguished by `logout`,
lines 120–131, but not by `login_with_session`, line 52). -/
inductive ExnKind where
  | request : ExnKind
  | other : ExnKind
deriving DecidableEq, Repr

/-- Outcome of one version-candidate attempt: an exception raised inside the
`try` block, or a parsed response. -/
inductive Attempt where
  | exn : ExnKind → String → Attempt
  | resp : ApiResult → Attempt
deriving DecidableEq, Repr

/-- The transport, keyed by the `version` field of the request payload
(the only payload field that varies across iterations of one loop). -/
def Transport : Type := String → Attempt

/-- Mutable state of a `SynologyAuth` instance:
`self.current_session_id` and `self.current_session_type`
(`synology_auth.py`, lines 12–13). -/
structure AuthState where
  current_session_id : Option String
  current_session_type : String
deriving DecidableEq, Repr

/-- `api_versions = ['7', '6', '3', '2']` (lines 24 and 90). -/
def api_versions : List String := ["7", "6", "3", "2"]

/-- `result.get('error', \x7b\x7d).get('code', 'unknown')` (lines 48 and 115). -/
def getErrCode (r : ApiResult) : ErrCode := r.errCode.getD (ErrCode.str "unknown")

/-- `[400, 402, 403, 404]` — login error codes for which no further version is
tried (line 50). -/
def terminal_login_codes : List ErrCode :=
  [ErrCode.num 400, ErrCode.num 402, ErrCode.num 403, ErrCode.num 404]

/-- `\x7b'success': False, 'error': \x7b'code': 'unknown', 'message': 'Authentication failed'\x7d\x7d`
— the synthetic result returned at line 56 when every version candidate failed. -/
def authFailedResult : ApiResult :=
  { success := false, sid := none,
    errCode := some (ErrCode.str "unknown"), errMsg := some "Authentication failed" }

/-- The `for version in api_versions` loop of `login_with_session`
(lines 26–53).  Per candidate: a raised exception is swallowed and the loop
continues (`except Exception: continue`); a response with truthy `success`
stores `data.sid` and the requested session type into the instance state and
returns the response (lines 42–46) — unless `data.sid` is absent, in which
case the `result['data']['sid']` access raises `KeyError` inside the same
`try`, which is likewise swallowed, leaving the state unchanged; a failure
response whose error code is in `terminal_login_codes` is returned
immediately (lines 47–51); any other failure continues to the next version.
Returns (result, new state, versions actually attempted in order). -/
def loginLoop (t : Transport) (session_type : String) (s : AuthState) :
    List String → ApiResult × AuthState × List String
  | [] => (authFailedResult, s, [])
  | v :: vs =>
    match t v with
    | Attempt.exn _ _ =>
      let x := loginLoop t session_type s vs
      (x.1, x.2.1, v :: x.2.2)
    | Attempt.resp r =>
      if r.success then
        match r.sid with
        | some sid =>
          (r, { current_session_id := some sid, current_session_type := session_type }, [v])
        | none =>
          let x := loginLoop t session_type s vs
          (x.1, x.2.1, v :: x.2.2)
      else if getErrCode r ∈ terminal_login_codes then
        (r, s, [v])
      else
        let x := loginLoop t session_type s vs
        (x.1, x.2.1, v :: x.2.2)

/-- `SynologyAuth.login_with_session` (lines 19–56): run the version loop
over `['7', '6', '3', '2']`.  The credentials only appear in the request
payload, which the transport abstracts over, so they are not parameters of
the model. -/
def login_with_session (t : Transport) (session_type : String) (s : AuthState) :
    ApiResult × AuthState × List String :=
  loginLoop t session_type s api_versions

/-- `[105, 106]` — logout error codes meaning "invalid session / not logged
in", after which no further version is tried (line 117). -/
def terminal_logout_codes : List ErrCode := [ErrCode.num 105, ErrCode.num 106]

/-- The `last_error` built for a caught `requests.RequestException`
(lines 120–124). -/
def networkErrorResult (m : String) : ApiResult :=
  { success := false, sid := none,
    errCode := some (ErrCode.str "network_error"),
    errMsg := some ("Network error: " ++ m) }

/-- The `last_error` built for any other caught `Exception` (lines 126–131). -/
def unknownErrorResult (m : String) : ApiResult :=
  { success := false, sid := none,
    errCode := some (ErrCode.str "unknown_error"),
    errMsg := some ("Unexpected error: " ++ m) }

/-- The generic result returned when the logout loop exhausts all versions
with `last_error` still `None` (lines 137–140). -/
def allVersionsFailedResult : ApiResult :=
  { success := false, sid := none,
    errCode := some (ErrCode.str "all_versions_failed"),
    errMsg := some "Logout failed with all API versions" }

/-- The "no session" failure returned by `logout` before any network call
(lines 81–85). -/
def noSessionResult : ApiResult :=
  { success := false, sid := none,
    errCode := some (ErrCode.str "no_session"),
    errMsg := some "No session ID provided or available" }

/-- Python `a or b` on an optional string `a`: `None` and the empty string
are falsy. -/
def pyOrOpt (a b : Option String) : Option String :=
  match a with
  | some x => if x = "" then b else some x
  | none => b

/-- Python `a or b` where `b` is a plain string. -/
def pyOr (a : Option String) (b : String) : String :=
  match a with
  | some x => if x = "" then b else x
  | none => b

/-- The `for version in api_versions` loop of `logout` (lines 93–140),
with the running `last_error` threaded through as `last`.  Per candidate:
a `requests.RequestException` or other `Exception` records the matching
`last_error` and continues; a success response clears the cached session iff
the identifier being logged out equals `self.current_session_id`
(lines 107–112) and returns; a failure response whose code is in
`terminal_logout_codes` breaks out of the loop, after which the
`if last_error: return last_error` epilogue returns that very response
(since `last_error = result` was just assigned at line 114); any other
failure records itself as `last_error` and continues.  An exhausted loop
returns `last_error`, or `allVersionsFailedResult` when none was recorded
(lines 133–140). -/
def logoutLoop (t : Transport) (lsid : String) (s : AuthState) (last : Option ApiResult) :
    List String → ApiResult × AuthState × List String
  | [] => (last.getD allVersionsFailedResult, s, [])
  | v :: vs =>
    match t v with
    | Attempt.exn ExnKind.request m =>
      let x := logoutLoop t lsid s (some (networkErrorResult m)) vs
      (x.1, x.2.1, v :: x.2.2)
    | Attempt.exn ExnKind.other m =>
      let x := logoutLoop t lsid s (some (unknownErrorResult m)) vs
      (x.1, x.2.1, v :: x.2.2)
    | Attempt.resp r =>
      if r.success then
        if s.current_session_id = some lsid then
          (r, { current_session_id := none, current_session_type := "FileStation" }, [v])
        else
          (r, s, [v])
      else if getErrCode r ∈ terminal_logout_codes then
        (r, s, [v])
      else
        let x := logoutLoop t lsid s (some r) vs
        (x.1, x.2.1, v :: x.2.2)

/-- `SynologyAuth.logout` (lines 66–140): resolve
`logout_session_id = session_id or self.current_session_id`; if that is
falsy (i.e. no identifier was supplied and none is cached, or both are
empty strings) return `noSessionResult` without invoking the transport;
otherwise run the version loop.  The resolved
`logout_session_type = session_type or self.current_session_type` only
appears in the request payload, which the transport abstracts over. -/
def logout (t : Transport) (session_id session_type : Option String) (s : AuthState) :
    ApiResult × AuthState × List String :=
  match pyOrOpt session_id s.current_session_id with
  | none => (noSessionResult, s, [])
  | some lsid =>
    if lsid = "" then (noSessionResult, s, [])
    else logoutLoop t lsid s none api_versions

/-! ### `src/dnsserver/synology_dnsserver.py` — request construction -/

/-- The f-string `f'"\x7b...\x7d"'` wrapping used throughout `create_record` and
`update_record`: the value surrounded by literal double-quote characters. -/
def pyQuote (s : String) : String := "\"" ++ s ++ "\""

/-- The `request_params` dictionary assembled by `_make_request`
(lines 17–23): the four standard entries followed by the method-specific
`**params`, values rendered as the strings the transport sends. -/
def make_request_params (api ver method sid : String)
    (params : List (String × String)) : List (String × String) :=
  ("api", api) :: ("version", ver) :: ("method", method) :: ("_sid", sid) :: params

/-- Python `name.endswith('.')` for the one-character suffix `'.'`:
the last character of the string is a dot. -/
def pyEndsWithDot (s : String) : Bool := s.data.getLast? == some '.'

/-- The `rr_owner` formatting block that appears verbatim in `create_record`
(lines 239–246) and `update_record` (lines 283–291): if the name does not end
in a dot, `'@'` maps to the quoted zone with a trailing dot and anything else
to the quoted `name.zone.`; a name already ending in a dot is quoted
verbatim. -/
def rr_owner_fmt (zone_name name : String) : String :=
  if ¬ pyEndsWithDot name then
    if name = "@" then pyQuote (zone_name ++ ".")
    else pyQuote (name ++ "." ++ zone_name ++ ".")
  else pyQuote name

/-- The method-specific `**params` of `create_record` (lines 248–257), in the
keyword-argument order of the call.  `ttl` is a Python `int`; `f'"\x7bttl\x7d"'`
renders its decimal form between quotes. -/
def create_record_specific_params (zone_name name record_type rdata : String)
    (ttl : Nat) : List (String × String) :=
  [("zone_name", pyQuote zone_name),
   ("domain_name", pyQuote zone_name),
   ("rr_owner", rr_owner_fmt zone_name name),
   ("rr_type", pyQuote record_type),
   ("rr_info", pyQuote rdata),
   ("rr_ttl", pyQuote (toString ttl))]

/-- The full parameter list sent by `create_record` (line 248–257). -/
def create_record_params (sid zone_name name record_type rdata : String)
    (ttl : Nat) : List (String × String) :=
  make_request_params "SYNO.DNSServer.Zone.Record" "1" "create" sid
    (create_record_specific_params zone_name name record_type rdata ttl)

/-- The `params` dictionary of `update_record` (lines 277–297), in insertion
order: the three mandatory quoted keys, then each optional field only when
the corresponding argument is not `None`. -/
def update_record_specific_params (zone_name record_key : String)
    (name record_type rdata : Option String) (ttl : Option Nat) :
    List (String × String) :=
  [("zone_name", pyQuote zone_name),
   ("domain_name", pyQuote zone_name),
   ("record_key", pyQuote record_key)]
  ++ (match name with
      | some n => [("rr_owner", rr_owner_fmt zone_name n)]
      | none => [])
  ++ (match record_type with
      | some rt => [("rr_type", pyQuote rt)]
      | none => [])
  ++ (match rdata with
      | some rd => [("rr_info", pyQuote rd)]
      | none => [])
  ++ (match ttl with
      | some tt => [("rr_ttl", pyQuote (toString tt))]
      | none => [])

/-- The full parameter list sent by `update_record` (lines 299–303). -/
def update_record_params (sid zone_name record_key : String)
    (name record_type rdata : Option String) (ttl : Option Nat) :
    List (String × String) :=
  make_request_params "SYNO.DNSServer.Zone.Record" "1" "set" sid
    (update_record_specific_params zone_name record_key name record_type rdata ttl)

/-- One entry of the `items` array built by `delete_record` (lines 328–336). -/
structure DeleteItem where
  zone_name : String
  domain_name : String
  rr_owner : String
  rr_type : String
  rr_ttl : String
  rr_info : String
  full_record : String
deriving DecidableEq, Repr

/-- The single item `delete_record` builds (lines 323–336):
`full_record = f"\x7brr_owner\x7d\t\x7brr_ttl or '86400'\x7d\t\x7brr_type\x7d\t\x7brr_info\x7d"` and the
structured fields, with `rr_ttl or "86400"` substituting the default for a
`None` or empty TTL argument. -/
def delete_record_item (zone_name rr_owner rr_type rr_info : String)
    (rr_ttl : Option String) : DeleteItem :=
  { zone_name := zone_name,
    domain_name := zone_name,
    rr_owner := rr_owner,
    rr_type := rr_type,
    rr_ttl := pyOr rr_ttl "86400",
    rr_info := rr_info,
    full_record :=
      rr_owner ++ "\t" ++ pyOr rr_ttl "86400" ++ "\t" ++ rr_type ++ "\t" ++ rr_info }

/-- One hexadecimal digit, lower case, as emitted by Python's `\uXXXX`
escapes. -/
def hexDigit (n : Nat) : Char :=
  if n < 10 then Char.ofNat (48 + n) else Char.ofNat (87 + n)

/-- Four lower-case hex digits of a code point `< 0x10000`. -/
def hex4 (n : Nat) : String :=
  String.mk [hexDigit (n / 4096 % 16), hexDigit (n / 256 % 16),
             hexDigit (n / 16 % 16), hexDigit (n % 16)]

/-- `json.dumps` escaping of a single character with the default
`ensure_ascii=True`: the two-character escapes for quote, backslash and the
common control characters, `\uXXXX` for the remaining control characters and
for every non-ASCII code point (a code point beyond the BMP becomes a
UTF-16 surrogate pair). -/
def jsonEscapeChar (c : Char) : String :=
  if c = '"' then "\\\""
  else if c = '\\' then "\\\\"
  else if c = '\t' then "\\t"
  else if c = '\n' then "\\n"
  else if c = '\r' then "\\r"
  else if c = Char.ofNat 8 then "\\b"
  else if c = Char.ofNat 12 then "\\f"
  else if c.toNat < 32 then "\\u" ++ hex4 c.toNat
  else if c.toNat < 127 then String.singleton c
  else if c.toNat < 65536 then "\\u" ++ hex4 c.toNat
  else
    "\\u" ++ hex4 (55296 + (c.toNat - 65536) / 1024)
      ++ "\\u" ++ hex4 (56320 + (c.toNat - 65536) % 1024)

/-- A JSON string literal as serialized by `json.dumps`. -/
def jsonString (s : String) : String :=
  "\"" ++ String.join (s.data.map jsonEscapeChar) ++ "\""

/-- `json.dumps` of one item dictionary, keys in insertion order, with the
default separators `', '` and `': '`. -/
def deleteItemJson (it : DeleteItem) : String :=
  "\x7b" ++ String.intercalate ", "
    [jsonString "zone_name" ++ ": " ++ jsonString it.zone_name,
     jsonString "domain_name" ++ ": " ++ jsonString it.domain_name,
     jsonString "rr_owner" ++ ": " ++ jsonString it.rr_owner,
     jsonString "rr_type" ++ ": " ++ jsonString it.rr_type,
     jsonString "rr_ttl" ++ ": " ++ jsonString it.rr_ttl,
     jsonString "rr_info" ++ ": " ++ jsonString it.rr_info,
     jsonString "full_record" ++ ": " ++ jsonString it.full_record] ++ "\x7d"

/-- `json.dumps(items)` for the items list (line 341). -/
def jsonDumpsItems (l : List DeleteItem) : String :=
  "[" ++ String.intercalate ", " (l.map deleteItemJson) ++ "]"

/-- The method-specific `**params` of `delete_record` (lines 338–342): the
single `items` parameter holding the JSON-serialized one-element list. -/
def delete_record_specific_params (zone_name rr_owner rr_type rr_info : String)
    (rr_ttl : Option String) : List (String × String) :=
  [("items", jsonDumpsItems [delete_record_item zone_name rr_owner rr_type rr_info rr_ttl])]

/-- The full parameter list sent by `delete_record` (lines 338–342). -/
def delete_record_params (sid zone_name rr_owner rr_type rr_info : String)
    (rr_ttl : Option String) : List (String × String) :=
  make_request_params "SYNO.DNSServer.Zone.Record" "1" "delete" sid
    (delete_record_specific_params zone_name rr_owner rr_type rr_info rr_ttl)

/-! ### `_make_request` response classification -/

/-- The parsed body of an `entry.cgi` response as `_make_request` inspects it:
the `success` flag, the `data` payload (of a payload type `α`; absent ↦
`none`, in which case `data.get('data', \x7b\x7d)` yields the empty default) and
the `error.code` field. -/
structure DnsResponse (α : Type) where
  success : Bool
  data : Option α
  errCode : Option ErrCode
deriving DecidableEq, Repr

/-- The ways `_make_request` can fail: the transport raised before a response
was parsed; `raise_for_status()` raised on a 4xx/5xx status (line 34); or a
parsed response with falsy `success` raised the
`"DNS Server API error: \x7bcode\x7d - ..."` exception carrying the remote code
(lines 37–40). -/
inductive CallError where
  | transportError : CallError
  | httpStatus : Nat → CallError
  | apiError : ErrCode → CallError
deriving DecidableEq, Repr

/-- `SynologyDNSServer._make_request` after the request was issued
(lines 26–42): the transport outcome is `none` when `requests` itself
raised, otherwise the HTTP status together with the parsed body.
`raise_for_status()` raises exactly for statuses in `[400, 600)`; then a
falsy `success` raises the structured API error, and a truthy `success`
returns `data.get('data', dflt)` where the Python default is the empty
dictionary. -/
def make_request {α : Type} (dflt : α) (out : Option (Nat × DnsResponse α)) :
    Except CallError α :=
  match out with
  | none => Except.error CallError.transportError
  | some (status, resp) =>
    if 400 ≤ status ∧ status < 600 then Except.error (CallError.httpStatus status)
    else if resp.success then Except.ok (resp.data.getD dflt)
    else Except.error (CallError.apiError (resp.errCode.getD (ErrCode.str "unknown")))

/-! ### Helper predicates and loop lemmas -/

/-- An attempt at version `v` after which the login loop proceeds to the
next candidate: a raised exception, a success response whose `data.sid` is
absent (the swallowed `KeyError` case), or a failure response with a
non-terminal error code. -/
def loginContinues (t : Transport) (v : String) : Bool :=
  match t v with
  | Attempt.exn _ _ => true
  | Attempt.resp r =>
    if r.success then decide (r.sid = none)
    else decide (getErrCode r ∉ terminal_login_codes)

/-- An attempt at version `v` after which the logout loop proceeds to the
next candidate: a raised exception or a failure response with a
non-terminal error code. -/
def logoutContinues (t : Transport) (v : String) : Bool :=
  match t v with
  | Attempt.exn _ _ => true
  | Attempt.resp r => !r.success && decide (getErrCode r ∉ terminal_logout_codes)

/-- The error result the logout loop records as `last_error` for the attempt
at version `v` (assuming that attempt did not succeed): the synthesized
network/unknown error for an exception, or the failure response itself. -/
def logoutObserved (t : Transport) (v : String) : ApiResult :=
  match t v with
  | Attempt.exn ExnKind.request m => networkErrorResult m
  | Attempt.exn ExnKind.other m => unknownErrorResult m
  | Attempt.resp r => r

lemma loginLoop_append (t : Transport) (st : String) (s : AuthState)
    (pre rest : List String) (h : ∀ v ∈ pre, loginContinues t v = true) :
    loginLoop t st s (pre ++ rest) =
      ((loginLoop t st s rest).1, (loginLoop t st s rest).2.1,
       pre ++ (loginLoop t st s rest).2.2) := by
  induction pre with
  | nil => simp
  | cons v vs ih =>
    have hv : loginContinues t v = true := h v (List.mem_cons_self v vs)
    have hrest : ∀ u ∈ vs, loginContinues t u = true :=
      fun u hu => h u (List.mem_cons_of_mem v hu)
    have ih' := ih hrest
    rw [List.cons_append]
    cases htv : t v with
    | exn k m =>
      simp [loginLoop, htv, ih']
    | resp r =>
      have hv2 : (if r.success then decide (r.sid = none)
          else decide (getErrCode r ∉ terminal_login_codes)) = true := by
        have hv3 := hv
        unfold loginContinues at hv3
        rw [htv] at hv3
        exact hv3
      cases hs : r.success with
      | true =>
        rw [hs] at hv2
        simp only [if_true] at hv2
        have hsid : r.sid = none := of_decide_eq_true hv2
        simp [loginLoop, htv, hs, hsid, ih']
      | false =>
        rw [hs] at hv2
        simp only [Bool.false_eq_true, if_false] at hv2
        have hterm : getErrCode r ∉ terminal_login_codes := of_decide_eq_true hv2
        simp [loginLoop, htv, hs, hterm, ih']

lemma logoutLoop_append (t : Transport) (lsid : String) (s : AuthState)
    (last : Option ApiResult) (pre rest : List String)
    (h : ∀ v ∈ pre, logoutContinues t v = true) :
    logoutLoop t lsid s last (pre ++ rest) =
      ((logoutLoop t lsid s
          (pre.foldl (fun _ v => some (logoutObserved t v)) last) rest).1,
       (logoutLoop t lsid s
          (pre.foldl (fun _ v => some (logoutObserved t v)) last) rest).2.1,
       pre ++ (logoutLoop t lsid s
          (pre.foldl (fun _ v => some (logoutObserved t v)) last) rest).2.2) := by
  induction pre generalizing last with
  | nil => simp
  | cons v vs ih =>
    have hv : logoutContinues t v = true := h v (List.mem_cons_self v vs)
    have hrest : ∀ u ∈ vs, logoutContinues t u = true :=
      fun u hu => h u (List.mem_cons_of_mem v hu)
    rw [List.cons_append]
    cases htv : t v with
    | exn k m =>
      cases k with
      | request =>
        have hobs : logoutObserved t v = networkErrorResult m := by
          unfold logoutObserved
          rw [htv]
        have ih' := ih (some (networkErrorResult m)) hrest
        simp [logoutLoop, htv, List.foldl_cons, hobs, ih']
      | other =>
        have hobs : logoutObserved t v = unknownErrorResult m := by
          unfold logoutObserved
          rw [htv]
        have ih' := ih (some (unknownErrorResult m)) hrest
        simp [logoutLoop, htv, List.foldl_cons, hobs, ih']
    | resp r =>
      have hv2 : (!r.success && decide (getErrCode r ∉ terminal_logout_codes)) = true := by
        have hv3 := hv
        unfold logoutContinues at hv3
        rw [htv] at hv3
        exact hv3
      have hs : r.success = false := by
        cases hsuc : r.success
        · rfl
        · rw [hsuc] at hv2; simp at hv2
      rw [hs] at hv2
      simp only [Bool.not_false, Bool.true_and] at hv2
      have hterm : getErrCode r ∉ terminal_logout_codes := of_decide_eq_true hv2
      have hobs : logoutObserved t v = r := by
        unfold logoutObserved
        rw [htv]
      have ih' := ih (some r) hrest
      simp [logoutLoop, htv, hs, hterm, List.foldl_cons, hobs, ih']

/-- `v` is wrapped in literal quote characters: at least two characters, and
both the first and the last one are the double-quote character. -/
def quoteWrapped (v : String) : Bool :=
  match v.data with
  | [] => false
  | c :: cs => c == '"' && !cs.isEmpty && cs.getLast? == some '"'

lemma pyQuote_data (s : String) : (pyQuote s).data = '"' :: (s.data ++ ['"']) := by
  unfold pyQuote
  rw [String.data_append, String.data_append]
  rfl

lemma quoteWrapped_pyQuote (s : String) : quoteWrapped (pyQuote s) = true := by
  unfold quoteWrapped
  rw [pyQuote_data]
  simp

lemma quoteWrapped_rr_owner_fmt (z n : String) :
    quoteWrapped (rr_owner_fmt z n) = true := by
  unfold rr_owner_fmt
  split
  · split
    · exact quoteWrapped_pyQuote _
    · exact quoteWrapped_pyQuote _
  · exact quoteWrapped_pyQuote _

lemma quoteWrapped_jsonDumpsItems (l : List DeleteItem) :
    quoteWrapped (jsonDumpsItems l) = false := by
  unfold quoteWrapped jsonDumpsItems
  rw [String.data_append, String.data_append]
  simp

/-- The owner-construction rule exactly as the specification words it
(spec-side definition, to be compared with `rr_owner_fmt` from the source):
a name already ending in a trailing dot is used verbatim (still quoted);
otherwise the root-marker `@` yields the quoted `zone.`; otherwise the
quoted `name.zone.`. -/
def ownerSpec (name zone : String) : String :=
  if pyEndsWithDot name then pyQuote name
  else if name = "@" then pyQuote (zone ++ ".")
  else pyQuote (name ++ "." ++ zone ++ ".")

lemma rr_owner_fmt_eq_ownerSpec (z n : String) : rr_owner_fmt z n = ownerSpec n z := by
  unfold rr_owner_fmt ownerSpec
  by_cases h : pyEndsWithDot n = true
  · simp [h]
  · simp [h]

/-! ### Claim theorems -/

/-- C1: if, during a `login_with_session` run, a version candidate's
response has `success=false` with an error code in \x7b400, 402, 403, 404\x7d
(the earlier candidates having all let the loop continue), that exact
failure result is returned immediately, the cached session state is
untouched, and no subsequent version candidate is attempted. -/
theorem C1_login_terminal_auth_error (t : Transport) (st : String) (s : AuthState)
    (pre post : List String) (v : String) (r : ApiResult)
    (hsplit : api_versions = pre ++ v :: post)
    (hpre : ∀ u ∈ pre, loginContinues t u = true)
    (hv : t v = Attempt.resp r)
    (hfail : r.success = false)
    (hterm : getErrCode r ∈ terminal_login_codes) :
    login_with_session t st s = (r, s, pre ++ [v]) := by
  unfold login_with_session
  rw [hsplit, loginLoop_append t st s pre (v :: post) hpre]
  simp [loginLoop, hv, hfail, hterm]

/-- Transport for the C1 witness: version 7 raises a transport exception,
version 6 answers with a terminal 403 failure, later versions would
succeed if they were ever tried. -/
def c1T : Transport := fun v =>
  if v = "7" then Attempt.exn ExnKind.request "connection refused"
  else if v = "6" then
    Attempt.resp { success := false, sid := none,
                   errCode := some (ErrCode.num 403), errMsg := some "denied" }
  else
    Attempt.resp { success := true, sid := some "SID-NEVER",
                   errCode := none, errMsg := none }

theorem C1_login_terminal_auth_error_witness :
    login_with_session c1T "FileStation" { current_session_id := none, current_session_type := "FileStation" } =
      ({ success := false, sid := none, errCode := some (ErrCode.num 403), errMsg := some "denied" },
       { current_session_id := none, current_session_type := "FileStation" },
       ["7", "6"]) :=
  C1_login_terminal_auth_error c1T "FileStation"
    { current_session_id := none, current_session_type := "FileStation" }
    ["7"] ["3", "2"] "6"
    { success := false, sid := none, errCode := some (ErrCode.num 403), errMsg := some "denied" }
    rfl (by decide) rfl rfl (by decide)

/-- C2: `login_with_session` walks the candidate versions in the order
7, 6, 3, 2; the first candidate whose response reports success ends the
run (no later candidate is attempted, so the attempted list is an initial
segment of the candidate list), the response is returned, and the returned
`data.sid` together with the requested session type become the cached
current session. -/
theorem C2_login_first_success (t : Transport) (st : String) (s : AuthState)
    (pre post : List String) (v : String) (r : ApiResult) (sid : String)
    (hsplit : api_versions = pre ++ v :: post)
    (hpre : ∀ u ∈ pre, loginContinues t u = true)
    (hv : t v = Attempt.resp r)
    (hs : r.success = true)
    (hsid : r.sid = some sid) :
    login_with_session t st s =
      (r, { current_session_id := some sid, current_session_type := st }, pre ++ [v]) ∧
    pre ++ [v] = api_versions.take (pre.length + 1) := by
  constructor
  · unfold login_with_session
    rw [hsplit, loginLoop_append t st s pre (v :: post) hpre]
    simp [loginLoop, hv, hs, hsid]
  · rw [hsplit, List.take_append_eq_append_take]
    have h1 : pre.length + 1 - pre.length = 1 := by omega
    rw [h1, List.take_of_length_le (Nat.le_succ _)]
    simp

/-- Transport for the C2 witness: version 7 fails with a non-terminal
code 105, version 6 succeeds with session identifier S1. -/
def c2T : Transport := fun v =>
  if v = "7" then
    Attempt.resp { success := false, sid := none,
                   errCode := some (ErrCode.num 105), errMsg := some "bad version" }
  else
    Attempt.resp { success := true, sid := some "S1", errCode := none, errMsg := none }

theorem C2_login_first_success_witness :
    login_with_session c2T "DNSServer" { current_session_id := none, current_session_type := "FileStation" } =
      ({ success := true, sid := some "S1", errCode := none, errMsg := none },
       { current_session_id := some "S1", current_session_type := "DNSServer" },
       ["7", "6"]) ∧
    ["7", "6"] = api_versions.take 2 :=
  C2_login_first_success c2T "DNSServer"
    { current_session_id := none, current_session_type := "FileStation" }
    ["7"] ["3", "2"] "6"
    { success := true, sid := some "S1", errCode := none, errMsg := none } "S1"
    rfl (by decide) rfl rfl rfl

/-- Transport for the C3 counterexample: versions 7, 6 and 3 raise transport
exceptions, version 2 answers with a non-terminal failure (code 105) — the
last error actually observed during the login run. -/
def c3T : Transport := fun v =>
  if v = "2" then
    Attempt.resp { success := false, sid := none,
                   errCode := some (ErrCode.num 105), errMsg := some "bad version" }
  else Attempt.exn ExnKind.request "timeout"

/-- C3 counterexample: in this `login_with_session` run the iteration is
exhausted without success or terminal failure, and the last observed error
is the version-2 failure response (code 105) — yet the caller receives the
synthetic `authFailedResult` (code `'unknown'`), not that last observed
error.  So the claim's "the last observed error is preserved and returned"
is false for `authenticate`. -/
theorem C3_counterexample :
    login_with_session c3T "FileStation"
        { current_session_id := none, current_session_type := "FileStation" } =
      (authFailedResult,
       { current_session_id := none, current_session_type := "FileStation" },
       api_versions) ∧
    c3T "2" = Attempt.resp { success := false, sid := none,
                             errCode := some (ErrCode.num 105), errMsg := some "bad version" } ∧
    authFailedResult ≠ { success := false, sid := none,
                         errCode := some (ErrCode.num 105), errMsg := some "bad version" } := by
  refine ⟨by decide, rfl, by decide⟩

/-- C3 as amended: transport exceptions during a single candidate attempt
are swallowed for both `login_with_session` and `logout`, and iteration
proceeds to the next candidate (all four candidates end up attempted).
When iteration is exhausted without success or terminal failure, `logout`
returns the last observed error (the one recorded for the final candidate,
version 2); `login_with_session`, however, returns the synthetic generic
`authFailedResult` with code `'unknown'` regardless of what errors were
observed. -/
theorem C3_amended (t tl : Transport) (st : String) (stypeArg : Option String)
    (s s2 : AuthState) (sid : String)
    (hsid : sid ≠ "")
    (hlogin : ∀ v ∈ api_versions, loginContinues t v = true)
    (hlogout : ∀ v ∈ api_versions, logoutContinues tl v = true) :
    login_with_session t st s = (authFailedResult, s, api_versions) ∧
    logout tl (some sid) stypeArg s2 = (logoutObserved tl "2", s2, api_versions) := by
  constructor
  · unfold login_with_session
    have h := loginLoop_append t st s api_versions [] hlogin
    rw [List.append_nil] at h
    rw [h]
    simp [loginLoop]
  · have hp : pyOrOpt (some sid) s2.current_session_id = some sid := by
      show (if sid = "" then s2.current_session_id else some sid) = some sid
      exact if_neg hsid
    simp only [logout, hp]
    rw [if_neg hsid]
    have h := logoutLoop_append tl sid s2 none api_versions [] hlogout
    rw [List.append_nil] at h
    rw [h]
    simp [logoutLoop, api_versions]

/-- Transports for the C3 witness: logins all fail non-terminally
(exceptions then a code-105 response); logouts fail with a network
exception on 7, an unexpected exception on 6, a non-terminal code-150
response on 3, and another network exception on 2. -/
def c3LoginT : Transport := fun v =>
  if v = "3" then
    Attempt.resp { success := false, sid := none,
                   errCode := some (ErrCode.num 105), errMsg := some "bad version" }
  else Attempt.exn ExnKind.other "boom"

def c3LogoutT : Transport := fun v =>
  if v = "7" then Attempt.exn ExnKind.request "unreachable"
  else if v = "6" then Attempt.exn ExnKind.other "boom"
  else if v = "3" then
    Attempt.resp { success := false, sid := none,
                   errCode := some (ErrCode.num 150), errMsg := some "nope" }
  else Attempt.exn ExnKind.request "reset by peer"

theorem C3_amended_witness :
    login_with_session c3LoginT "FileStation"
        { current_session_id := none, current_session_type := "FileStation" } =
      (authFailedResult,
       { current_session_id := none, current_session_type := "FileStation" },
       api_versions) ∧
    logout c3LogoutT (some "SID1") none
        { current_session_id := some "SID1", current_session_type := "FileStation" } =
      (logoutObserved c3LogoutT "2",
       { current_session_id := some "SID1", current_session_type := "FileStation" },
       api_versions) :=
  C3_amended c3LoginT c3LogoutT "FileStation" none
    { current_session_id := none, current_session_type := "FileStation" }
    { current_session_id := some "SID1", current_session_type := "FileStation" }
    "SID1" (by decide) (by decide) (by decide)

/-- C8: calling `logout` with no explicit session identifier while no
session is cached returns the distinct `no_session` failure, leaves the
state untouched, and attempts no version candidate — i.e. performs no
network call. -/
theorem C8_logout_no_session (t : Transport) (stypeArg : Option String) (s : AuthState)
    (h : s.current_session_id = none) :
    logout t none stypeArg s = (noSessionResult, s, []) := by
  have hp : pyOrOpt none s.current_session_id = none := by
    show s.current_session_id = none
    exact h
  simp only [logout, hp]

/-- Transport for the C8 witness: every request would succeed, which makes
it observable that none is issued. -/
def c8T : Transport := fun _ =>
  Attempt.resp { success := true, sid := none, errCode := none, errMsg := none }

theorem C8_logout_no_session_witness :
    logout c8T none (some "DNSServer")
        { current_session_id := none, current_session_type := "FileStation" } =
      (noSessionResult,
       { current_session_id := none, current_session_type := "FileStation" }, []) :=
  C8_logout_no_session c8T (some "DNSServer")
    { current_session_id := none, current_session_type := "FileStation" } rfl

/-- C9: when a `logout` run succeeds at some version candidate (the earlier
candidates having let the loop continue), the success response is returned,
and the cached session is cleared — identifier unset, session type reset to
the default `FileStation` — if and only if the identifier being logged out
equals the cached one; otherwise the cached state is left unchanged. -/
theorem C9_logout_clears_matching_session (t : Transport) (sid : String)
    (stypeArg : Option String) (s : AuthState)
    (pre post : List String) (v : String) (r : ApiResult)
    (hsid : sid ≠ "")
    (hsplit : api_versions = pre ++ v :: post)
    (hpre : ∀ u ∈ pre, logoutContinues t u = true)
    (hv : t v = Attempt.resp r)
    (hs : r.success = true) :
    logout t (some sid) stypeArg s =
      (r,
       if s.current_session_id = some sid then
         { current_session_id := none, current_session_type := "FileStation" }
       else s,
       pre ++ [v]) := by
  have hp : pyOrOpt (some sid) s.current_session_id = some sid := by
    show (if sid = "" then s.current_session_id else some sid) = some sid
    exact if_neg hsid
  simp only [logout, hp]
  rw [if_neg hsid]
  rw [hsplit, logoutLoop_append t sid s none pre (v :: post) hpre]
  by_cases hc : s.current_session_id = some sid
  · simp [logoutLoop, hv, hs, hc]
  · simp [logoutLoop, hv, hs, hc]

/-- Transport for the C9 witness: version 7 fails with a non-terminal
code 150 response, version 6 succeeds. -/
def c9T : Transport := fun v =>
  if v = "7" then
    Attempt.resp { success := false, sid := none,
                   errCode := some (ErrCode.num 150), errMsg := some "nope" }
  else Attempt.resp { success := true, sid := none, errCode := none, errMsg := none }

theorem C9_logout_clears_matching_session_witness :
    logout c9T (some "S1") none
        { current_session_id := some "S1", current_session_type := "DNSServer" } =
      ({ success := true, sid := none, errCode := none, errMsg := none },
       { current_session_id := none, current_session_type := "FileStation" },
       ["7", "6"]) ∧
    logout c9T (some "OTHER") none
        { current_session_id := some "S1", current_session_type := "DNSServer" } =
      ({ success := true, sid := none, errCode := none, errMsg := none },
       { current_session_id := some "S1", current_session_type := "DNSServer" },
       ["7", "6"]) :=
  ⟨C9_logout_clears_matching_session c9T "S1" none
      { current_session_id := some "S1", current_session_type := "DNSServer" }
      ["7"] ["3", "2"] "6"
      { success := true, sid := none, errCode := none, errMsg := none }
      (by decide) rfl (by decide) rfl rfl,
   C9_logout_clears_matching_session c9T "OTHER" none
      { current_session_id := some "S1", current_session_type := "DNSServer" }
      ["7"] ["3", "2"] "6"
      { success := true, sid := none, errCode := none, errMsg := none }
      (by decide) rfl (by decide) rfl rfl⟩

/-- C4 counterexample: `delete_record` sends exactly one method-specific
parameter, `items`, whose string value is the JSON serialization of the
record fields — a value beginning with `[`, not wrapped in literal quote
characters.  So "every string-valued parameter is wrapped in literal quote
characters" is false for the record mutation call `delete_record` at this
concrete input. -/
theorem C4_counterexample :
    delete_record_specific_params "example.com" "www.example.com." "A" "192.168.1.1" none =
      [("items",
        jsonDumpsItems
          [delete_record_item "example.com" "www.example.com." "A" "192.168.1.1" none])] ∧
    quoteWrapped
      (jsonDumpsItems
        [delete_record_item "example.com" "www.example.com." "A" "192.168.1.1" none]) = false :=
  ⟨rfl, quoteWrapped_jsonDumpsItems _⟩

/-- C4 as amended: for `create_record` and `update_record` every
method-specific parameter value is wrapped in literal quote characters; for
`delete_record` the single method-specific parameter is `items`, holding
the JSON serialization of the record fields, and that value is never
quote-wrapped (the field strings inside it are quoted only by JSON
syntax). -/
theorem C4_amended (zone name rtype rdata : String) (ttl : Nat)
    (zone2 rkey : String) (uname urt urd : Option String) (uttl : Option Nat)
    (dzone downer dtype dinfo : String) (dttl : Option String) :
    (∀ kv ∈ create_record_specific_params zone name rtype rdata ttl,
       quoteWrapped kv.2 = true) ∧
    (∀ kv ∈ update_record_specific_params zone2 rkey uname urt urd uttl,
       quoteWrapped kv.2 = true) ∧
    delete_record_specific_params dzone downer dtype dinfo dttl =
      [("items", jsonDumpsItems [delete_record_item dzone downer dtype dinfo dttl])] ∧
    quoteWrapped (jsonDumpsItems [delete_record_item dzone downer dtype dinfo dttl]) = false := by
  refine ⟨?_, ?_, rfl, quoteWrapped_jsonDumpsItems _⟩
  · simp [create_record_specific_params, quoteWrapped_pyQuote, quoteWrapped_rr_owner_fmt]
  · simp only [update_record_specific_params, List.forall_mem_append]
    refine ⟨⟨⟨⟨?_, ?_⟩, ?_⟩, ?_⟩, ?_⟩
    · simp [quoteWrapped_pyQuote]
    · cases uname with
      | none => simp
      | some n => simp [quoteWrapped_rr_owner_fmt]
    · cases urt with
      | none => simp
      | some rt => simp [quoteWrapped_pyQuote]
    · cases urd with
      | none => simp
      | some rd => simp [quoteWrapped_pyQuote]
    · cases uttl with
      | none => simp
      | some tt => simp [quoteWrapped_pyQuote]

theorem C4_amended_witness :
    quoteWrapped (pyQuote "example.com") = true ∧
    quoteWrapped
      (jsonDumpsItems
        [delete_record_item "example.com" "www.example.com." "A" "192.168.1.1" none]) = false :=
  ⟨(C4_amended "example.com" "www" "A" "192.168.1.1" 300
      "example.com" "k1" none none none none
      "example.com" "www.example.com." "A" "192.168.1.1" none).1
      ("zone_name", pyQuote "example.com") (by simp [create_record_specific_params]),
   (C4_amended "example.com" "www" "A" "192.168.1.1" 300
      "example.com" "k1" none none none none
      "example.com" "www.example.com." "A" "192.168.1.1" none).2.2.2⟩

/-- C5: the fully-qualified owner sent by `create_record` and (when a name
is supplied) by `update_record` follows the spec's rule `ownerSpec`: a name
with a trailing dot is used verbatim (quoted); `@` yields `zone.`; anything
else yields `name.zone.` — with the concrete instances `@`/`example.com` ↦
`example.com.` and `www`/`example.com` ↦ `www.example.com.`. -/
theorem C5_owner_construction (zone name rtype rdata : String) (ttl : Nat)
    (rkey : String) (urt urd : Option String) (uttl : Option Nat) :
    ("rr_owner", ownerSpec name zone) ∈
      create_record_specific_params zone name rtype rdata ttl ∧
    ("rr_owner", ownerSpec name zone) ∈
      update_record_specific_params zone rkey (some name) urt urd uttl ∧
    ownerSpec "@" "example.com" = pyQuote "example.com." ∧
    ownerSpec "www" "example.com" = pyQuote "www.example.com." ∧
    ownerSpec "ftp.example.com." "example.com" = pyQuote "ftp.example.com." := by
  refine ⟨?_, ?_, by decide, by decide, by decide⟩
  · simp [create_record_specific_params, rr_owner_fmt_eq_ownerSpec]
  · simp [update_record_specific_params, rr_owner_fmt_eq_ownerSpec, List.mem_append]

/-- C6: each item of the JSON-serialized `items` list sent by
`delete_record` carries the structured fields together with a synthesized
`full_record` string equal to the item's owner, ttl, type and data fields
joined by single tab characters in exactly that order. -/
theorem C6_delete_full_record (zone owner rtype rinfo : String) (ttlArg : Option String) :
    delete_record_specific_params zone owner rtype rinfo ttlArg =
      [("items", jsonDumpsItems [delete_record_item zone owner rtype rinfo ttlArg])] ∧
    (delete_record_item zone owner rtype rinfo ttlArg).full_record =
      (delete_record_item zone owner rtype rinfo ttlArg).rr_owner ++ "\t" ++
      (delete_record_item zone owner rtype rinfo ttlArg).rr_ttl ++ "\t" ++
      (delete_record_item zone owner rtype rinfo ttlArg).rr_type ++ "\t" ++
      (delete_record_item zone owner rtype rinfo ttlArg).rr_info :=
  ⟨rfl, rfl⟩

/-- C7: a `_make_request` call whose parsed response has `success=false`
never returns the `data` field — it yields the structured error carrying
the remote code — and a call whose response has `success=true` returns the
`data` field. -/
theorem C7_make_request_classification {α : Type} (dflt : α) (status : Nat)
    (resp : DnsResponse α) (hstatus : ¬(400 ≤ status ∧ status < 600)) :
    (resp.success = false →
       make_request dflt (some (status, resp)) =
         Except.error (CallError.apiError (resp.errCode.getD (ErrCode.str "unknown"))) ∧
       ∀ x, make_request dflt (some (status, resp)) ≠ Except.ok x) ∧
    (resp.success = true →
       make_request dflt (some (status, resp)) = Except.ok (resp.data.getD dflt)) := by
  constructor
  · intro hfail
    constructor
    · simp [make_request, hstatus, hfail]
    · intro x
      simp [make_request, hstatus, hfail]
  · intro hsucc
    simp [make_request, hstatus, hsucc]

/-- Concrete failure response for the C7 witness: status 200, `success`
false, error code 119. -/
def c7resp : DnsResponse Nat :=
  { success := false, data := none, errCode := some (ErrCode.num 119) }

theorem C7_make_request_classification_witness :
    make_request (0 : Nat) (some (200, c7resp)) =
      Except.error (CallError.apiError (ErrCode.num 119)) :=
  ((C7_make_request_classification 0 200 c7resp (by decide)).1 rfl).1

/-- C10: when `delete_record` is called with `rr_ttl` omitted (the Python
default `None`), explicitly `None`, or the empty string, the default
`'86400'` is substituted both in the structured `rr_ttl` field of the item
and in the synthesized tab-delimited `full_record` line; the parameters are
a pure function of the arguments — no remote fetch of the TTL happens,
despite the docstring's "will be fetched if not provided". -/
theorem C10_delete_ttl_default (zone owner rtype rinfo : String) (ttlArg : Option String)
    (h : ttlArg = none ∨ ttlArg = some "") :
    (delete_record_item zone owner rtype rinfo ttlArg).rr_ttl = "86400" ∧
    (delete_record_item zone owner rtype rinfo ttlArg).full_record =
      owner ++ "\t" ++ "86400" ++ "\t" ++ rtype ++ "\t" ++ rinfo ∧
    delete_record_specific_params zone owner rtype rinfo ttlArg =
      [("items", jsonDumpsItems [delete_record_item zone owner rtype rinfo ttlArg])] := by
  rcases h with rfl | rfl
  · exact ⟨rfl, rfl, rfl⟩
  · refine ⟨?_, ?_, rfl⟩
    · show pyOr (some "") "86400" = "86400"
      simp [pyOr]
    · show owner ++ "\t" ++ pyOr (some "") "86400" ++ "\t" ++ rtype ++ "\t" ++ rinfo =
        owner ++ "\t" ++ "86400" ++ "\t" ++ rtype ++ "\t" ++ rinfo
      simp [pyOr]

theorem C10_delete_ttl_default_witness :
    (delete_record_item "example.com" "www.example.com." "A" "192.168.1.1" none).rr_ttl =
      "86400" ∧
    (delete_record_item "example.com" "www.example.com." "A" "192.168.1.1" none).full_record =
      "www.example.com." ++ "\t" ++ "86400" ++ "\t" ++ "A" ++ "\t" ++ "192.168.1.1" ∧
    delete_record_specific_params "example.com" "www.example.com." "A" "192.168.1.1" none =
      [("items",
        jsonDumpsItems
          [delete_record_item "example.com" "www.example.com." "A" "192.168.1.1" none])] :=
  C10_delete_ttl_default "example.com" "www.example.com." "A" "192.168.1.1" none (Or.inl rfl)
